import Mathlib

/-!
Shallow embedding of `create_rotating_logo.py`, a single-file script that
loads a logo image, converts it to RGBA when needed, builds 36 rotated
frames (frame `i` rotated by `-(i * (360 / 36))` degrees, bicubic,
`expand=False`) and saves them as an animated GIF with `duration=50`,
`loop=0`, `optimize=True`.

Pure image values are records; the PIL library calls the script makes
(`Image.open`, `convert`, `rotate`, `save`) are modelled at the level of
their documented semantics.  The pixel data produced by rotating at a
nonzero angle depends on PIL's affine-transform internals; those are kept
abstract through a `ResampleEngine` parameter, so every theorem below holds
for any resampler.  Everything the claims inspect (list structure, sizes,
modes, angles, the encode parameters and the file system effects) is
modelled concretely from the source.
-/

/-- One pixel as a red/green/blue/alpha quadruple (each channel `0..255`).
Images in modes without an alpha channel store `a = 255` (fully opaque),
matching what PIL materialises for them on conversion. -/
structure Pixel where
  r : Nat
  g : Nat
  b : Nat
  a : Nat
  deriving Repr, DecidableEq

/-- An in-memory raster image: PIL mode string, size, row-major pixel data. -/
structure Image where
  mode : String
  width : Nat
  height : Nat
  data : List Pixel
  deriving Repr, DecidableEq

/-- The PIL resampling filters the script can mention (`Image.BICUBIC`). -/
inductive Resample where
  | NEAREST
  | BILINEAR
  | BICUBIC
  deriving Repr, DecidableEq

/-- Python's float modulo on rationals: `a % b = a - b * floor (a / b)`,
so for `b > 0` the result lies in `[0, b)`.  PIL's `rotate` starts with
`angle = angle % 360.0`. -/
def fmod (a b : ℚ) : ℚ := a - b * (⌊a / b⌋ : ℤ)

/-- The parts of PIL's rotation that depend on affine-transform internals,
kept abstract: the resampled pixel data for a nonzero angle, and the
enlarged canvas size used when `expand=True` (the script never uses it). -/
structure ResampleEngine where
  content : Image → Resample → ℚ → List Pixel
  expandedSize : Image → ℚ → Nat × Nat

/-- PIL `Image.rotate(angle, resample, expand)`: the angle is first reduced
modulo 360; an effective angle of 0 is a fast path returning a copy of the
image (pixel-identical); otherwise the image is resampled, onto a canvas of
the same size when `expand=False` and onto the enlarged bounding-box canvas
when `expand=True`.  The mode is preserved in every case. -/
def Image.rotate (eng : ResampleEngine) (img : Image) (angle : ℚ)
    (filter : Resample) (expand : Bool) : Image :=
  if fmod angle 360 = 0 then img
  else
    { mode := img.mode,
      width := if expand then (eng.expandedSize img (fmod angle 360)).1 else img.width,
      height := if expand then (eng.expandedSize img (fmod angle 360)).2 else img.height,
      data := eng.content img filter (fmod angle 360) }

/-- PIL modes that already carry an alpha channel. -/
def modeHasAlpha (m : String) : Bool :=
  m = "RGBA" || m = "RGBa" || m = "LA" || m = "La" || m = "PA"

/-- Per-pixel effect of `convert('RGBA')`: colour content is preserved; a
source without an alpha channel becomes fully opaque (`a = 255`). -/
def convertPixel (srcMode : String) (p : Pixel) : Pixel :=
  if modeHasAlpha srcMode then p
  else { r := p.r, g := p.g, b := p.b, a := 255 }

/-- PIL `Image.convert('RGBA')`: same size, mode becomes `"RGBA"`, pixel
content preserved (alpha materialised as opaque when absent). -/
def Image.convertRGBA (img : Image) : Image :=
  { mode := "RGBA", width := img.width, height := img.height,
    data := img.data.map (convertPixel img.mode) }

/-- Lines 8-9 of the script:
`if logo.mode != 'RGBA': logo = logo.convert('RGBA')`. -/
def normalizeLogo (logo : Image) : Image :=
  if logo.mode ≠ "RGBA" then logo.convertRGBA else logo

/-- Line 16: `angle = i * (360 / num_frames)` (float division in Python;
exact rational here — for the script's `num_frames = 36` the float values
are exact as well, `360 / 36 = 10.0`). -/
def frameAngle (num_frames i : Nat) : ℚ := (i : ℚ) * (360 / (num_frames : ℚ))

/-- Line 18: `rotated = logo.rotate(-angle, resample=Image.BICUBIC,
expand=False)`. -/
def makeFrame (eng : ResampleEngine) (logo : Image) (num_frames i : Nat) : Image :=
  Image.rotate eng logo (-(frameAngle num_frames i)) Resample.BICUBIC false

/-- Lines 12-19: build the frame list by appending, starting from `[]`:
`for i in range(num_frames): ... frames.append(rotated)`. -/
def generateFrames (eng : ResampleEngine) (logo : Image) (num_frames : Nat) :
    List Image :=
  (List.range num_frames).foldl
    (fun frames i => frames ++ [makeFrame eng logo num_frames i]) []

/-- The content of the animated GIF handed to the encoder: the full frame
sequence and the save parameters from lines 23-30. -/
structure GifData where
  frames : List Image
  duration : Nat
  loopFlag : Nat
  optimize : Bool
  deriving Repr, DecidableEq

/-- Lines 23-30: `frames[0].save(..., save_all=True,
append_images=frames[1:], duration=50, loop=0, optimize=True)`.  On an
empty list `frames[0]` raises `IndexError` before anything is written;
otherwise the encoded animation holds the first frame followed by the rest,
i.e. the whole list in generation order. -/
def encodeGif (frames : List Image) (duration loopFlag : Nat)
    (optimize : Bool) : Option GifData :=
  match frames with
  | [] => none
  | f0 :: rest =>
    some { frames := f0 :: rest, duration := duration, loopFlag := loopFlag,
           optimize := optimize }

/-- A file as the model sees it: an image that decodes, an animated GIF the
script wrote, or bytes that do not decode as an image. -/
inductive FileContent where
  | imageFile (img : Image)
  | gifFile (g : GifData)
  | otherFile
  deriving Repr, DecidableEq

/-- A file system: a partial map from paths to file contents. -/
def FileSystem : Type := String → Option FileContent

/-- Line 5: the hard-coded input path. -/
def input_path : String := "/data/users/liuzhou/online/OpenPrism/static/logo.png"

/-- Line 22: the hard-coded output path. -/
def output_path : String :=
  "/data/users/liuzhou/online/OpenPrism/static/logo-rotating.gif"

/-- Line 13: `num_frames = 36`. -/
def num_frames : Nat := 36

/-- PIL `Image.open`: succeeds exactly when the path holds a decodable
image; a missing path or undecodable bytes fail. -/
def Image.openFile (fs : FileSystem) (p : String) : Option Image :=
  match fs p with
  | some (FileContent.imageFile img) => some img
  | _ => none

/-- Outcome of one run of the script: the resulting file system and either
the printed confirmation message or the uncaught exception. -/
structure RunResult where
  fs : FileSystem
  output : Except String String

/-- The whole script, with the frame count left as a parameter (the script
fixes it to 36): load, normalizeLogo, generate frames, encode and write.  A
load failure or an `IndexError` in the encode step aborts the run with the
file system untouched; a successful encode overwrites `output_path` and
prints the confirmation message. -/
def runScript (eng : ResampleEngine) (N : Nat) (fs : FileSystem) : RunResult :=
  match Image.openFile fs input_path with
  | none => { fs := fs, output := Except.error "cannot identify image file" }
  | some logo =>
    let logo := normalizeLogo logo
    let frames := generateFrames eng logo N
    match encodeGif frames 50 0 true with
    | none =>
      { fs := fs, output := Except.error "IndexError: list index out of range" }
    | some g =>
      { fs := fun q => if q = output_path then some (FileContent.gifFile g) else fs q,
        output := Except.ok ("旋转动画已创建: " ++ output_path) }

/-- The script as written, with `num_frames = 36`. -/
def createRotatingLogo (eng : ResampleEngine) (fs : FileSystem) : RunResult :=
  runScript eng num_frames fs

/-! ### Helper lemmas and concrete sample values -/

/-- A trivial resampling engine used to evaluate the model on concrete
inputs: rotation keeps the pixel data, `expand=True` keeps the size. -/
def trivEngine : ResampleEngine :=
  { content := fun img _ _ => img.data, expandedSize := fun img _ => (img.width, img.height) }

/-- A concrete 2x1 three-channel (no alpha) sample image. -/
def sampleRGB : Image :=
  { mode := "RGB", width := 2, height := 1,
    data := [{ r := 1, g := 2, b := 3, a := 255 }, { r := 4, g := 5, b := 6, a := 255 }] }

/-- A concrete 1x1 four-channel sample image. -/
def sampleRGBA : Image :=
  { mode := "RGBA", width := 1, height := 1,
    data := [{ r := 9, g := 8, b := 7, a := 128 }] }

/-- A concrete file system holding a decodable image at the input path. -/
def sampleFS : FileSystem :=
  fun p => if p = input_path then some (FileContent.imageFile sampleRGB) else none

/-- The empty file system. -/
def emptyFS : FileSystem := fun _ => none

theorem foldl_push_eq_map {α β : Type} (f : α → β) (l : List α) :
    ∀ acc : List β, l.foldl (fun fs i => fs ++ [f i]) acc = acc ++ l.map f := by
  induction l with
  | nil => intro acc; simp
  | cons x xs ih => intro acc; simp [List.foldl_cons, ih]

/-- The append loop of lines 15-19 produces the map of `makeFrame` over
`range num_frames`. -/
theorem generateFrames_eq_map (eng : ResampleEngine) (logo : Image) (N : Nat) :
    generateFrames eng logo N = (List.range N).map (makeFrame eng logo N) := by
  unfold generateFrames
  rw [foldl_push_eq_map]
  simp

theorem generateFrames_length (eng : ResampleEngine) (logo : Image) (N : Nat) :
    (generateFrames eng logo N).length = N := by
  rw [generateFrames_eq_map]
  simp

/-- Rotating by (exactly) angle 0 hits PIL's fast path and returns the
image unchanged. -/
theorem rotate_zero (eng : ResampleEngine) (img : Image)
    (filter : Resample) (expand : Bool) :
    Image.rotate eng img 0 filter expand = img := by
  simp [Image.rotate, fmod]

/-- Frame 0 is the unrotated image: the loop body at `i = 0` computes
`angle = 0` and `rotate(-0)` is the identity. -/
theorem makeFrame_zero (eng : ResampleEngine) (logo : Image) (N : Nat) :
    makeFrame eng logo N 0 = logo := by
  simp [makeFrame, frameAngle, rotate_zero]

/-- `rotate` never changes the mode, whatever the angle and flags. -/
theorem rotate_mode (eng : ResampleEngine) (img : Image) (angle : ℚ)
    (filter : Resample) (expand : Bool) :
    (Image.rotate eng img angle filter expand).mode = img.mode := by
  unfold Image.rotate
  split <;> rfl

/-- With `expand=False` the canvas size is never changed. -/
theorem rotate_noexpand_size (eng : ResampleEngine) (img : Image) (angle : ℚ)
    (filter : Resample) :
    (Image.rotate eng img angle filter false).width = img.width ∧
    (Image.rotate eng img angle filter false).height = img.height := by
  unfold Image.rotate
  split <;> simp

/-- A nonempty frame list encodes successfully, carrying the whole list. -/
theorem encodeGif_of_ne_nil (frames : List Image) (d l : Nat) (b : Bool)
    (h : frames ≠ []) :
    encodeGif frames d l b =
      some { frames := frames, duration := d, loopFlag := l, optimize := b } := by
  cases frames with
  | nil => exact absurd rfl h
  | cons f0 rest => rfl

theorem generateFrames_ne_nil (eng : ResampleEngine) (logo : Image) (N : Nat)
    (h : 1 ≤ N) : generateFrames eng logo N ≠ [] := by
  intro hnil
  have hlen := generateFrames_length eng logo N
  rw [hnil] at hlen
  simp at hlen
  omega

/-- A successful load with at least one frame runs to completion: the
output path is overwritten with the encoded animation and the
confirmation message is printed. -/
theorem runScript_ok (eng : ResampleEngine) (N : Nat) (fs : FileSystem)
    (logo : Image) (hopen : Image.openFile fs input_path = some logo)
    (hN : 1 ≤ N) :
    runScript eng N fs =
      { fs := fun q => if q = output_path then
            some (FileContent.gifFile
              { frames := generateFrames eng (normalizeLogo logo) N,
                duration := 50, loopFlag := 0, optimize := true })
          else fs q,
        output := Except.ok ("旋转动画已创建: " ++ output_path) } := by
  unfold runScript
  rw [hopen]
  simp only []
  rw [encodeGif_of_ne_nil _ _ _ _ (generateFrames_ne_nil eng (normalizeLogo logo) N hN)]

/-! ### Claim theorems -/

/-- C1: for all `N ≥ 1` the loop of lines 15-19 builds exactly `N` frames,
and frame 0 is pixel-identical to the normalized input image (the rotation
by angle 0 leaves the image unchanged). -/
theorem generateFrames_count_and_first (eng : ResampleEngine) (logo : Image)
    (N : Nat) (hN : 1 ≤ N) :
    (generateFrames eng (normalizeLogo logo) N).length = N ∧
    (generateFrames eng (normalizeLogo logo) N).head? = some (normalizeLogo logo) := by
  refine ⟨generateFrames_length eng (normalizeLogo logo) N, ?_⟩
  rw [generateFrames_eq_map]
  obtain ⟨M, rfl⟩ : ∃ M, N = M + 1 := ⟨N - 1, (Nat.succ_pred_eq_of_pos hN).symm⟩
  rw [List.range_succ_eq_map]
  simp [makeFrame_zero]

/-- Witness for C1 at `N = 3` on a concrete image. -/
theorem generateFrames_count_and_first_witness :
    (1 ≤ 3) ∧
    ((generateFrames trivEngine (normalizeLogo sampleRGB) 3).length = 3 ∧
     (generateFrames trivEngine (normalizeLogo sampleRGB) 3).head? =
       some (normalizeLogo sampleRGB)) :=
  ⟨by decide, generateFrames_count_and_first trivEngine sampleRGB 3 (by decide)⟩

/-- C2: frame `i` is produced by rotating by exactly `i * 360 / N` degrees
in the negative (clockwise) direction, and consecutive angles differ by
`360 / N`, so the angles are evenly spaced over the full turn. -/
theorem frameAngle_evenly_spaced (eng : ResampleEngine) (logo : Image)
    (N i : Nat) (_hi : i < N) :
    frameAngle N i = (i : ℚ) * 360 / N ∧
    makeFrame eng logo N i =
      Image.rotate eng logo (-((i : ℚ) * 360 / N)) Resample.BICUBIC false ∧
    frameAngle N (i + 1) - frameAngle N i = 360 / N := by
  have h1 : frameAngle N i = (i : ℚ) * 360 / N := by
    unfold frameAngle
    rw [mul_div_assoc]
  refine ⟨h1, ?_, ?_⟩
  · rw [makeFrame, h1]
  · unfold frameAngle
    push_cast
    ring

/-- Witness for C2 at `N = 36`, `i = 7`. -/
theorem frameAngle_evenly_spaced_witness :
    (7 < 36) ∧
    (frameAngle 36 7 = (7 : ℚ) * 360 / 36 ∧
     makeFrame trivEngine sampleRGBA 36 7 =
       Image.rotate trivEngine sampleRGBA (-((7 : ℚ) * 360 / 36))
         Resample.BICUBIC false ∧
     frameAngle 36 (7 + 1) - frameAngle 36 7 = 360 / 36) :=
  ⟨by decide, frameAngle_evenly_spaced trivEngine sampleRGBA 36 7 (by decide)⟩

/-- C3: a successful run writes to `output_path` (overwriting whatever the
file system held there) an animation holding the whole frame list in
generation order, with `duration = 50`, `loop = 0` (infinite) and
`optimize = True`, and leaves every other path untouched. -/
theorem encode_params_and_overwrite (eng : ResampleEngine) (fs : FileSystem)
    (logo : Image) (h : Image.openFile fs input_path = some logo) :
    ∃ g : GifData,
      (createRotatingLogo eng fs).fs output_path = some (FileContent.gifFile g) ∧
      (∀ q, q ≠ output_path → (createRotatingLogo eng fs).fs q = fs q) ∧
      g.frames = generateFrames eng (normalizeLogo logo) num_frames ∧
      g.frames.length = num_frames ∧
      g.duration = 50 ∧ g.loopFlag = 0 ∧ g.optimize = true := by
  refine ⟨{ frames := generateFrames eng (normalizeLogo logo) num_frames,
            duration := 50, loopFlag := 0, optimize := true }, ?_⟩
  rw [createRotatingLogo, runScript_ok eng num_frames fs logo h (by norm_num [num_frames])]
  refine ⟨by simp, fun q hq => by simp [hq], rfl,
    generateFrames_length eng (normalizeLogo logo) num_frames, rfl, rfl, rfl⟩

/-- Witness for C3 on a concrete file system. -/
theorem encode_params_and_overwrite_witness :
    (Image.openFile sampleFS input_path = some sampleRGB) ∧
    (∃ g : GifData,
      (createRotatingLogo trivEngine sampleFS).fs output_path =
        some (FileContent.gifFile g) ∧
      (∀ q, q ≠ output_path → (createRotatingLogo trivEngine sampleFS).fs q = sampleFS q) ∧
      g.frames = generateFrames trivEngine (normalizeLogo sampleRGB) num_frames ∧
      g.frames.length = num_frames ∧
      g.duration = 50 ∧ g.loopFlag = 0 ∧ g.optimize = true) :=
  ⟨rfl, encode_params_and_overwrite trivEngine sampleFS sampleRGB rfl⟩

/-- C4: every generated frame has the dimensions of the source image:
`expand=False` never changes the canvas size. -/
theorem frames_dims_eq_input (eng : ResampleEngine) (logo : Image) (N : Nat) :
    (generateFrames eng logo N).map (fun f => (f.width, f.height)) =
      List.replicate N (logo.width, logo.height) := by
  rw [generateFrames_eq_map, List.map_map]
  apply List.eq_replicate_iff.mpr
  refine ⟨by simp, ?_⟩
  intro b hb
  obtain ⟨i, hi, rfl⟩ := List.mem_map.mp hb
  have h := rotate_noexpand_size eng logo (-(frameAngle N i)) Resample.BICUBIC
  simp only [Function.comp_apply, makeFrame]
  rw [h.1, h.2]

/-- `convert('RGBA')` preserves each pixel's colour content. -/
theorem convertPixel_rgb (m : String) (p : Pixel) :
    ((convertPixel m p).r, (convertPixel m p).g, (convertPixel m p).b) =
      (p.r, p.g, p.b) := by
  unfold convertPixel
  split <;> rfl

theorem normalizeLogo_mode (logo : Image) : (normalizeLogo logo).mode = "RGBA" := by
  unfold normalizeLogo
  split
  · rfl
  · next h =>
    push_neg at h
    exact h

/-- Every frame generated from `logo` keeps `logo`'s mode. -/
theorem generateFrames_modes (eng : ResampleEngine) (logo : Image) (N : Nat) :
    (generateFrames eng logo N).map Image.mode = List.replicate N logo.mode := by
  rw [generateFrames_eq_map, List.map_map]
  apply List.eq_replicate_iff.mpr
  refine ⟨by simp, ?_⟩
  intro b hb
  obtain ⟨i, hi, rfl⟩ := List.mem_map.mp hb
  simp only [Function.comp_apply, makeFrame]
  exact rotate_mode eng logo (-(frameAngle N i)) Resample.BICUBIC false

/-- C5: after normalization the image is in four-channel `"RGBA"` mode with
its colour content unchanged, and every generated frame is in `"RGBA"` mode
as well. -/
theorem normalized_rgba_invariant (eng : ResampleEngine) (logo : Image) (N : Nat) :
    (normalizeLogo logo).mode = "RGBA" ∧
    (normalizeLogo logo).data.map (fun p => (p.r, p.g, p.b)) =
      logo.data.map (fun p => (p.r, p.g, p.b)) ∧
    (generateFrames eng (normalizeLogo logo) N).map Image.mode =
      List.replicate N "RGBA" := by
  refine ⟨normalizeLogo_mode logo, ?_, ?_⟩
  · unfold normalizeLogo
    split
    · simp [Image.convertRGBA, List.map_map, Function.comp_def, convertPixel_rgb]
    · rfl
  · rw [generateFrames_modes, normalizeLogo_mode]

/-- C6: Normalize is idempotent — on an image already in `"RGBA"` mode the
conversion branch is skipped and the image passes through unchanged, and a
second application of Normalize never changes the result of the first. -/
theorem normalizeLogo_idempotent (img : Image) (h : img.mode = "RGBA") :
    normalizeLogo img = img ∧
    normalizeLogo (normalizeLogo img) = normalizeLogo img := by
  have h1 : normalizeLogo img = img := by
    unfold normalizeLogo
    rw [if_neg]
    simp [h]
  exact ⟨h1, by rw [h1]; exact h1⟩

/-- Witness for C6 on a concrete `"RGBA"` image. -/
theorem normalizeLogo_idempotent_witness :
    sampleRGBA.mode = "RGBA" ∧
    (normalizeLogo sampleRGBA = sampleRGBA ∧
     normalizeLogo (normalizeLogo sampleRGBA) = normalizeLogo sampleRGBA) :=
  ⟨rfl, normalizeLogo_idempotent sampleRGBA rfl⟩

/-- C7: frame `i` of the generated sequence is exactly the rotation of the
source image by `-(frameAngle N i)` — a function of the normalized source
and the index alone, never of the previous frame, so no drift accumulates. -/
theorem frame_from_source_only (eng : ResampleEngine) (logo : Image)
    (N i : Nat) (hi : i < N) :
    (generateFrames eng logo N)[i]? =
      some (Image.rotate eng logo (-(frameAngle N i)) Resample.BICUBIC false) := by
  rw [generateFrames_eq_map, List.getElem?_map, List.getElem?_range hi]
  rfl

/-- Witness for C7 at `N = 4`, `i = 1`. -/
theorem frame_from_source_only_witness :
    (1 < 4) ∧
    (generateFrames trivEngine sampleRGBA 4)[1]? =
      some (Image.rotate trivEngine sampleRGBA (-(frameAngle 4 1))
        Resample.BICUBIC false) :=
  ⟨by decide, frame_from_source_only trivEngine sampleRGBA 4 1 (by decide)⟩

/-- C8: when the input path does not hold a decodable image the run stops
with the read error and the file system — in particular the output path —
is exactly as before: the load step precedes the save step. -/
theorem load_failure_no_write (eng : ResampleEngine) (N : Nat) (fs : FileSystem)
    (h : Image.openFile fs input_path = none) :
    runScript eng N fs =
      { fs := fs, output := Except.error "cannot identify image file" } := by
  unfold runScript
  rw [h]

/-- Witness for C8 on the empty file system. -/
theorem load_failure_no_write_witness :
    Image.openFile emptyFS input_path = none ∧
    runScript trivEngine 36 emptyFS =
      { fs := emptyFS, output := Except.error "cannot identify image file" } :=
  ⟨rfl, load_failure_no_write trivEngine 36 emptyFS rfl⟩

/-- C9: for `N ≥ 1` the frame list is nonempty, so `frames[0]` and
`frames[1:]` in the encode step are well-defined and encoding succeeds; at
`N = 0` the run raises the out-of-range error at `frames[0]` with the file
system untouched — nothing is written. -/
theorem frames_nonempty_safe_encode (eng : ResampleEngine) (fs : FileSystem)
    (logo : Image) (N : Nat) (hopen : Image.openFile fs input_path = some logo)
    (hN : 1 ≤ N) :
    generateFrames eng (normalizeLogo logo) N ≠ [] ∧
    encodeGif (generateFrames eng (normalizeLogo logo) N) 50 0 true =
      some { frames := generateFrames eng (normalizeLogo logo) N,
             duration := 50, loopFlag := 0, optimize := true } ∧
    runScript eng 0 fs =
      { fs := fs, output := Except.error "IndexError: list index out of range" } := by
  have hne := generateFrames_ne_nil eng (normalizeLogo logo) N hN
  refine ⟨hne, encodeGif_of_ne_nil _ _ _ _ hne, ?_⟩
  unfold runScript
  rw [hopen]
  rfl

/-- Witness for C9 at `N = 2` on a concrete file system. -/
theorem frames_nonempty_safe_encode_witness :
    (Image.openFile sampleFS input_path = some sampleRGB ∧ 1 ≤ 2) ∧
    (generateFrames trivEngine (normalizeLogo sampleRGB) 2 ≠ [] ∧
     encodeGif (generateFrames trivEngine (normalizeLogo sampleRGB) 2) 50 0 true =
       some { frames := generateFrames trivEngine (normalizeLogo sampleRGB) 2,
              duration := 50, loopFlag := 0, optimize := true } ∧
     runScript trivEngine 0 sampleFS =
       { fs := sampleFS, output := Except.error "IndexError: list index out of range" }) :=
  ⟨⟨rfl, by decide⟩,
   frames_nonempty_safe_encode trivEngine sampleFS sampleRGB 2 rfl (by decide)⟩

/-- C10: no run — whatever its outcome — changes what the file system holds
at the input path: the only write goes to `output_path`, which differs from
`input_path`. -/
theorem run_preserves_input (eng : ResampleEngine) (N : Nat) (fs : FileSystem) :
    (runScript eng N fs).fs input_path = fs input_path ∧
    output_path ≠ input_path := by
  have hne : ¬ (input_path = output_path) := by decide
  refine ⟨?_, fun h => hne h.symm⟩
  unfold runScript
  rcases hopen : Image.openFile fs input_path with _ | logo
  · rfl
  · rcases henc : encodeGif (generateFrames eng (normalizeLogo logo) N) 50 0 true
      with _ | g
    · simp [henc]
    · simp [henc, if_neg hne]
